import Mathlib

/-!
Shallow embedding of the task-list web application (src/app.py) and proofs of
the claims of the specification about it.

The application is a single Flask module: a connection factory reading five
environment variables (`db_config` / `get_db_connection`), a read handler
(`index`, GET /), a write handler (`add_task`, POST /add) and a health handler
(`health`, GET /health).  The external MySQL server is modelled by a `World`
(committed rows of the `tasks` table, the next AUTO_INCREMENT value, and the
count of open connection handles) together with a `FaultSpec` oracle saying
which driver call, if any, raises an exception during the request.
-/

namespace TaskApp

/-- One row of the `tasks` table: store-assigned identifier and task name. -/
structure Task where
  id : Nat
  task_name : String
deriving DecidableEq, Repr

/-- The state visible to one request: committed rows of the `tasks` table,
the next AUTO_INCREMENT identifier, and how many connection handles are
currently open (for tracking leaks). -/
structure World where
  db : List Task
  nextId : Nat
  openConns : Nat
deriving DecidableEq, Repr

/-- Python-level exceptions that the storage driver or request parsing can
raise in this application. -/
inductive PyError where
  | connectionError (msg : String)
  | queryError (msg : String)
  | badRequestKey (key : String)
  | valueError (msg : String)
deriving DecidableEq, Repr

/-- Python `str(e)` on an exception, as interpolated by the read handler. -/
def PyError.str : PyError → String
  | .connectionError m => m
  | .queryError m => m
  | .badRequestKey k => "400 Bad Request: the key " ++ k ++ " is missing"
  | .valueError m => m

/-- Fault oracle for the external MySQL server during one request: at which
driver call, if any, an exception is raised, and its message.  `none` means
that call succeeds. -/
structure FaultSpec where
  connectF : Option String
  executeF : Option String
  fetchF : Option String
  commitF : Option String
deriving DecidableEq, Repr

/-- The fault oracle under which every driver call succeeds (store reachable,
queries succeed). -/
def noFault : FaultSpec := ⟨none, none, none, none⟩

/-- An HTTP response as produced by the three handlers: a rendered HTML page,
a plain string (Flask returns it with status 200), a redirect, or a JSON
payload with an explicit status. -/
inductive Response where
  | html (body : String)
  | text (body : String)
  | redirect (location : String)
  | json (fields : List (String × String)) (status : Nat)
deriving DecidableEq, Repr

/-- The HTTP status code of a response (Flask defaults: strings and rendered
templates are 200, `redirect` is 302). -/
def Response.status : Response → Nat
  | .html _ => 200
  | .text _ => 200
  | .redirect _ => 302
  | .json _ s => s

/-- The process environment: variable name to value, `none` when unset. -/
def Env : Type := String → Option String

/-- Python `os.getenv(key, default)`. -/
def getenv (env : Env) (key default : String) : String :=
  (env key).getD default

/-- The five connection parameters built by the module-level `db_config`
dictionary in src/app.py. -/
structure DBConfig where
  host : String
  user : String
  password : String
  database : String
  port : Int
deriving DecidableEq, Repr

/-- Digit string to number, most significant first. -/
def natOfDigits (l : List Char) : Nat :=
  l.foldl (fun n c => n * 10 + (c.toNat - 48)) 0

/-- Python `int(s)` on a string (the forms this system meets): an optionally
signed run of decimal digits parses to its value, anything else raises
`ValueError`. -/
def pyInt (s : String) : Except PyError Int :=
  match s.data with
  | [] => .error (.valueError ("invalid literal for int with base 10: " ++ s))
  | '-' :: rest =>
    if !rest.isEmpty && rest.all Char.isDigit then .ok (-(natOfDigits rest : Int))
    else .error (.valueError ("invalid literal for int with base 10: " ++ s))
  | '+' :: rest =>
    if !rest.isEmpty && rest.all Char.isDigit then .ok (natOfDigits rest)
    else .error (.valueError ("invalid literal for int with base 10: " ++ s))
  | l =>
    if l.all Char.isDigit then .ok (natOfDigits l)
    else .error (.valueError ("invalid literal for int with base 10: " ++ s))

/-- The module-level `db_config` dictionary: each of the five parameters read
from its environment variable with a fixed default; `DB_PORT` is additionally
passed through `int` (which can raise, hence the `Except`). -/
def db_config (env : Env) : Except PyError DBConfig :=
  match (match env "DB_PORT" with
         | none => Except.ok (3306 : Int)
         | some s => pyInt s) with
  | .error e => .error e
  | .ok port =>
    .ok { host := getenv env "DB_HOST" "mysql-service"
          user := getenv env "DB_USER" "root"
          password := getenv env "DB_PASSWORD" "password"
          database := getenv env "DB_NAME" "taskdb"
          port := port }

/-- The function `get_db_connection` , i.e. `pymysql.connect(**db_config)`: opens one fresh
connection handle (no pooling, no reuse), or raises a connection error when
the target is unreachable or credentials are rejected (fault point
`connectF`). -/
def get_db_connection (fb : FaultSpec) (w : World) : Except PyError World :=
  match fb.connectF with
  | some msg => .error (.connectionError msg)
  | none => .ok { w with openConns := w.openConns + 1 }

/-- The call `conn.close()`: releases one connection handle. -/
def conn_close (w : World) : World :=
  { w with openConns := w.openConns - 1 }

/-- The call `cursor.execute("SELECT * FROM tasks")` followed by `cursor.fetchall()`:
returns every row of the table in stored order (the statement has no ORDER BY
clause), unless execution or fetching raises (fault points `executeF`,
`fetchF`). -/
def select_all_tasks (fb : FaultSpec) (w : World) : Except PyError (List Task) :=
  match fb.executeF with
  | some msg => .error (.queryError msg)
  | none =>
    match fb.fetchF with
    | some msg => .error (.queryError msg)
    | none => .ok w.db

/-- The parametrised insert, `cursor.execute` with the INSERT statement and the task value:
assigns the AUTO_INCREMENT identifier and buffers the new row in the open
transaction (fault point `executeF`).  Returns the updated world and the
buffered row. -/
def execute_insert (fb : FaultSpec) (w : World) (task : String) :
    Except PyError (World × Task) :=
  match fb.executeF with
  | some msg => .error (.queryError msg)
  | none => .ok ({ w with nextId := w.nextId + 1 }, ⟨w.nextId, task⟩)

/-- The call `conn.commit()`: makes the buffered row durable by appending it to the
committed table (fault point `commitF`). -/
def commit (fb : FaultSpec) (w : World) (pending : Task) : Except PyError World :=
  match fb.commitF with
  | some msg => .error (.queryError msg)
  | none => .ok { w with db := w.db ++ [pending] }

/-- Modelled from the spec: the Jinja template `templates/index.html` is not
under src/; per the spec it is "a server-rendered HTML template iterating over
the task list", so it is modelled as emitting one list item per task name. -/
def render_items : List Task → String
  | [] => ""
  | t :: ts => "<li>" ++ t.task_name ++ "</li>" ++ render_items ts

/-- Modelled from the spec: `render_template` applied to `index.html` with the task list. -/
def render_index (tasks : List Task) : String :=
  "<html><body><ul>" ++ render_items tasks ++ "</ul></body></html>"

/-- The form data of a POST request: field name to submitted value. -/
def Form : Type := String → Option String

/-- The GET / handler (`index` in src/app.py).  Everything from connection
acquisition to rendering sits inside `try`; on any exception the handler
returns the plain string `"Database Error: " ++ str(e)` instead (so the
`Except` layer is always `.ok`).  On the success path the connection is
closed before rendering; on the except path it is not. -/
def index (fb : FaultSpec) (w : World) : Except PyError Response × World :=
  match get_db_connection fb w with
  | .error e => (.ok (.text ("Database Error: " ++ e.str)), w)
  | .ok w1 =>
    match select_all_tasks fb w1 with
    | .error e => (.ok (.text ("Database Error: " ++ e.str)), w1)
    | .ok tasks =>
      let w2 := conn_close w1
      (.ok (.html (render_index tasks)), w2)

/-- The POST /add handler (`add_task` in src/app.py).  reading the `task` form field (Python `request.form` indexing)
raises a BadRequestKeyError when the field is missing; there is no
`try`/`except`, so every exception propagates out of the handler (`.error`),
and the connection is not closed on any error path after it was opened. -/
def add_task (form : Form) (fb : FaultSpec) (w : World) :
    Except PyError Response × World :=
  match form "task" with
  | none => (.error (.badRequestKey "task"), w)
  | some task =>
    match get_db_connection fb w with
    | .error e => (.error e, w)
    | .ok w1 =>
      match execute_insert fb w1 task with
      | .error e => (.error e, w1)
      | .ok (w2, pending) =>
        match commit fb w2 pending with
        | .error e => (.error e, w2)
        | .ok w3 => (.ok (.redirect "/"), conn_close w3)

/-- The GET /health handler (`health` in src/app.py): returns
a 200 status with the healthy JSON payload unconditionally, consulting neither the
database state nor the fault oracle. -/
def health (_fb : FaultSpec) (w : World) : Except PyError Response × World :=
  (.ok (.json [("status", "healthy")] 200), w)

/-- Sequential POST /add submissions under the fault-free oracle, one request
per name, each with its own form carrying that name in the `task` field. -/
def run_adds : List String → World → World
  | [], w => w
  | s :: rest, w =>
    run_adds rest (add_task (fun k => if k = "task" then some s else none) noFault w).2

/-- A concrete process environment used to exercise the connection factory:
`DB_HOST` and `DB_PORT` are overridden, the other variables are unset. -/
def envSample : Env := fun k =>
  if k = "DB_HOST" then some "db.example" else
  if k = "DB_PORT" then some "5" else none

/-! ### Helper lemmas -/

theorem add_task_ok (form : Form) (task : String) (w : World)
    (h : form "task" = some task) :
    add_task form noFault w =
      (.ok (.redirect "/"),
       { db := w.db ++ [⟨w.nextId, task⟩], nextId := w.nextId + 1,
         openConns := w.openConns }) := by
  simp [add_task, h, noFault, get_db_connection, execute_insert, commit, conn_close]

theorem index_connect_fail (fb : FaultSpec) (w : World) (m : String)
    (h : fb.connectF = some m) :
    index fb w = (.ok (.text ("Database Error: " ++ m)), w) := by
  simp [index, get_db_connection, h, PyError.str]

theorem index_execute_fail (fb : FaultSpec) (w : World) (m : String)
    (hc : fb.connectF = none) (he : fb.executeF = some m) :
    index fb w = (.ok (.text ("Database Error: " ++ m)),
                  { w with openConns := w.openConns + 1 }) := by
  simp [index, get_db_connection, select_all_tasks, hc, he, PyError.str]

theorem index_fetch_fail (fb : FaultSpec) (w : World) (m : String)
    (hc : fb.connectF = none) (he : fb.executeF = none) (hf : fb.fetchF = some m) :
    index fb w = (.ok (.text ("Database Error: " ++ m)),
                  { w with openConns := w.openConns + 1 }) := by
  simp [index, get_db_connection, select_all_tasks, hc, he, hf, PyError.str]

theorem index_all_ok (fb : FaultSpec) (w : World)
    (hc : fb.connectF = none) (he : fb.executeF = none) (hf : fb.fetchF = none) :
    index fb w = (.ok (.html (render_index w.db)), w) := by
  simp [index, get_db_connection, select_all_tasks, conn_close, hc, he, hf]

theorem dbErr_eq (m : String) :
    "Database Error: " ++ m = "" ++ "Database Error" ++ (": " ++ m) := by
  have h : ("" : String) ++ "Database Error" ++ ": " = "Database Error: " := by decide
  rw [← h, String.append_assoc]

theorem render_items_mem (ts : List Task) (t : Task) (h : t ∈ ts) :
    ∃ p q, render_items ts = p ++ t.task_name ++ q := by
  induction ts with
  | nil => cases h
  | cons x xs ih =>
    rcases List.mem_cons.mp h with rfl | hx
    · exact ⟨"<li>", "</li>" ++ render_items xs,
        by simp [render_items, String.append_assoc]⟩
    · obtain ⟨p, q, hp⟩ := ih hx
      exact ⟨"<li>" ++ x.task_name ++ "</li>" ++ p, q,
        by rw [render_items, hp]; simp [String.append_assoc]⟩

theorem render_index_mem (ts : List Task) (t : Task) (h : t ∈ ts) :
    ∃ p q, render_index ts = p ++ t.task_name ++ q := by
  obtain ⟨p, q, hp⟩ := render_items_mem ts t h
  exact ⟨"<html><body><ul>" ++ p, q ++ "</ul></body></html>",
    by rw [render_index, hp]; simp [String.append_assoc]⟩

theorem run_adds_length (names : List String) (w : World) :
    (run_adds names w).db.length = w.db.length + names.length := by
  induction names generalizing w with
  | nil => simp [run_adds]
  | cons s rest ih =>
    rw [run_adds, add_task_ok _ s w (by simp)]
    simp [ih]
    omega

/-! ### Claim theorems -/

/-- Claim C1: for every task-name string `s` and every starting state,
POST /add with form field `task = s` followed by GET / (store reachable,
no concurrent mutation, i.e. the fault-free oracle) yields a rendered page
whose output includes `s`; and inserting N tasks sequentially from any table
state grows the list length by exactly N on the next read. -/
theorem post_add_then_get_roundtrip :
    (∀ (w : World) (s : String),
      ∃ body p q,
        (index noFault
          (add_task (fun k => if k = "task" then some s else none) noFault w).2).1
            = .ok (.html body) ∧
        body = p ++ s ++ q) ∧
    (∀ (names : List String) (w : World),
      (run_adds names w).db.length = w.db.length + names.length) := by
  constructor
  · intro w s
    obtain ⟨p, q, hp⟩ :=
      render_index_mem (w.db ++ [⟨w.nextId, s⟩]) ⟨w.nextId, s⟩ (by simp)
    refine ⟨render_index (w.db ++ [⟨w.nextId, s⟩]), p, q, ?_, hp⟩
    rw [add_task_ok (fun k => if k = "task" then some s else none) s w (by simp)]
    rw [index_all_ok noFault _ rfl rfl rfl]
  · exact run_adds_length

/-- Claim C2: GET /health returns status 200 with body
`{"status": "healthy"}` for every database state and every fault behaviour
of the store; the result is one constant, independent of database
availability in every way (it does not even read the world or the oracle). -/
theorem health_always_healthy :
    ∀ (fb : FaultSpec) (w : World),
      (health fb w).1 = .ok (.json [("status", "healthy")] 200) ∧
      (health fb w).2 = w ∧
      (Response.json [("status", "healthy")] 200).status = 200 ∧
      ∀ (fb2 : FaultSpec) (w2 : World), (health fb w).1 = (health fb2 w2).1 :=
  fun _ _ => ⟨rfl, rfl, rfl, fun _ _ => rfl⟩

/-- Claim C3: GET / never propagates an exception (the result of the handler is
always `.ok`), and whenever connection acquisition, query execution or
fetching fails, the response is a plain-text body containing the substring
"Database Error". -/
theorem index_catches_all :
    ∀ (fb : FaultSpec) (w : World),
      (∃ r, (index fb w).1 = Except.ok r) ∧
      ((fb.connectF ≠ none ∨ fb.executeF ≠ none ∨ fb.fetchF ≠ none) →
        ∃ body p q,
          (index fb w).1 = .ok (.text body) ∧ body = p ++ "Database Error" ++ q) := by
  intro fb w
  rcases hc : fb.connectF with _ | m
  · rcases he : fb.executeF with _ | m
    · rcases hf : fb.fetchF with _ | m
      · rw [index_all_ok fb w hc he hf]
        exact ⟨⟨_, rfl⟩, by simp [hc, he, hf]⟩
      · rw [index_fetch_fail fb w m hc he hf]
        exact ⟨⟨_, rfl⟩, fun _ => ⟨_, "", ": " ++ m, rfl, dbErr_eq m⟩⟩
    · rw [index_execute_fail fb w m hc he]
      exact ⟨⟨_, rfl⟩, fun _ => ⟨_, "", ": " ++ m, rfl, dbErr_eq m⟩⟩
  · rw [index_connect_fail fb w m hc]
    exact ⟨⟨_, rfl⟩, fun _ => ⟨_, "", ": " ++ m, rfl, dbErr_eq m⟩⟩

/-- Witness for C3 at a concrete unreachable store. -/
theorem index_catches_all_witness :
    ∃ body p q,
      (index ⟨some "boom", none, none, none⟩ ⟨[], 1, 0⟩).1 = .ok (.text body) ∧
      body = p ++ "Database Error" ++ q :=
  (index_catches_all ⟨some "boom", none, none, none⟩ ⟨[], 1, 0⟩).2 (by simp)

/-- Claim C4: POST /add catches no exceptions: a connection failure, an
insert failure and a commit failure each propagate out of the handler as an
unhandled `.error`; and when the failure happens after the connection was
opened (insert or commit), the connection handle stays open (open count is
one above the starting count). -/
theorem add_task_no_catch :
    ∀ (form : Form) (task : String) (fb : FaultSpec) (w : World),
      form "task" = some task →
      ((∀ m, fb.connectF = some m →
          add_task form fb w = (.error (.connectionError m), w)) ∧
       (∀ m, fb.connectF = none → fb.executeF = some m →
          (add_task form fb w).1 = .error (.queryError m) ∧
          (add_task form fb w).2.openConns = w.openConns + 1) ∧
       (∀ m, fb.connectF = none → fb.executeF = none → fb.commitF = some m →
          (add_task form fb w).1 = .error (.queryError m) ∧
          (add_task form fb w).2.openConns = w.openConns + 1)) := by
  intro form task fb w h
  refine ⟨fun m hc => ?_, fun m hc he => ?_, fun m hc he hcm => ?_⟩
  · simp [add_task, h, get_db_connection, hc]
  · constructor <;>
      simp [add_task, h, get_db_connection, execute_insert, hc, he]
  · constructor <;>
      simp [add_task, h, get_db_connection, execute_insert, commit, hc, he, hcm]

/-- Witness for C4: a concrete insert failure propagates and leaks the
connection handle. -/
theorem add_task_no_catch_witness :
    (add_task (fun k => if k = "task" then some "t" else none)
        ⟨none, some "dup", none, none⟩ ⟨[], 1, 0⟩).1 = .error (.queryError "dup") ∧
    (add_task (fun k => if k = "task" then some "t" else none)
        ⟨none, some "dup", none, none⟩ ⟨[], 1, 0⟩).2.openConns = 0 + 1 :=
  (add_task_no_catch (fun k => if k = "task" then some "t" else none) "t"
    ⟨none, some "dup", none, none⟩ ⟨[], 1, 0⟩ (by simp)).2.1 "dup" rfl rfl

/-- Claim C5: POST /add whose form lacks the `task` key fails with the
request-validation error for that missing key before touching the database:
the world (table, identifiers, open connections) is unchanged, so it is not a
silent no-op. -/
theorem add_task_missing_field :
    ∀ (form : Form) (fb : FaultSpec) (w : World),
      form "task" = none →
      add_task form fb w = (.error (.badRequestKey "task"), w) := by
  intro form fb w h
  simp [add_task, h]

/-- Witness for C5 at an empty form. -/
theorem add_task_missing_field_witness :
    add_task (fun _ => none) noFault ⟨[], 1, 0⟩ =
      (.error (.badRequestKey "task"), ⟨[], 1, 0⟩) :=
  add_task_missing_field (fun _ => none) noFault ⟨[], 1, 0⟩ rfl

/-- Claim C6: when execution and fetching succeed, the List operation
(`SELECT * FROM tasks` + `fetchall`) returns exactly the stored sequence of
(identifier, name) rows — all rows, in stored order, with no ordering clause
imposed — and the empty sequence when the table has no rows. -/
theorem list_returns_all_rows :
    ∀ (fb : FaultSpec) (w : World),
      fb.executeF = none → fb.fetchF = none →
      select_all_tasks fb w = .ok w.db ∧
      (w.db = [] → select_all_tasks fb w = .ok []) := by
  intro fb w he hf
  constructor
  · simp [select_all_tasks, he, hf]
  · intro h0
    simp [select_all_tasks, he, hf, h0]

/-- Witness for C6 at the fault-free oracle and the empty table. -/
theorem list_returns_all_rows_witness :
    select_all_tasks noFault ⟨[], 0, 0⟩ = .ok [] :=
  (list_returns_all_rows noFault ⟨[], 0, 0⟩ rfl rfl).2 rfl

/-- Claim C7: POST /add with a `task` field, when connection, insert and
commit all succeed, returns a 302 redirect to / and appends exactly one row
carrying the submitted name unchanged (no application-level validation:
any string, the empty one included, is stored as-is). -/
theorem add_task_success :
    ∀ (form : Form) (task : String) (w : World),
      form "task" = some task →
      add_task form noFault w =
        (.ok (.redirect "/"),
         { db := w.db ++ [⟨w.nextId, task⟩], nextId := w.nextId + 1,
           openConns := w.openConns }) ∧
      (Response.redirect "/").status = 302 :=
  fun form task w h => ⟨add_task_ok form task w h, rfl⟩

/-- Witness for C7: the empty task name is accepted and stored as-is. -/
theorem add_task_success_witness :
    add_task (fun k => if k = "task" then some "" else none) noFault ⟨[], 1, 0⟩ =
      (.ok (.redirect "/"), ⟨[⟨1, ""⟩], 2, 0⟩) ∧
    (Response.redirect "/").status = 302 :=
  add_task_success (fun k => if k = "task" then some "" else none) "" ⟨[], 1, 0⟩
    (by simp)

/-- Claim C8: the connection factory is driven by exactly the five
parameters of `db_config`, each read from its environment variable
(DB_HOST, DB_USER, DB_PASSWORD, DB_NAME, DB_PORT) with its fixed default
(`mysql-service`, `root`, `password`, `taskdb`, 3306); connecting raises a
ConnectionError when the target is unreachable or credentials are rejected;
and each successful call opens one fresh handle (open count grows by one —
no reuse across requests). -/
theorem connection_factory_spec :
    (∀ (env : Env) (cfg : DBConfig), db_config env = .ok cfg →
       cfg.host = getenv env "DB_HOST" "mysql-service" ∧
       cfg.user = getenv env "DB_USER" "root" ∧
       cfg.password = getenv env "DB_PASSWORD" "password" ∧
       cfg.database = getenv env "DB_NAME" "taskdb" ∧
       (env "DB_PORT" = none → cfg.port = 3306) ∧
       (∀ s, env "DB_PORT" = some s → pyInt s = .ok cfg.port)) ∧
    (∀ (fb : FaultSpec) (w : World) (m : String), fb.connectF = some m →
       get_db_connection fb w = .error (.connectionError m)) ∧
    (∀ (fb : FaultSpec) (w : World), fb.connectF = none →
       get_db_connection fb w = .ok { w with openConns := w.openConns + 1 }) := by
  refine ⟨?_, fun fb w m h => by simp [get_db_connection, h],
          fun fb w h => by simp [get_db_connection, h]⟩
  intro env cfg h
  rcases hp : env "DB_PORT" with _ | s
  · simp only [db_config, hp, Except.ok.injEq] at h
    subst h
    exact ⟨rfl, rfl, rfl, rfl, fun _ => rfl, fun s hs => by cases hs⟩
  · simp only [db_config, hp] at h
    rcases hq : pyInt s with e | n
    · rw [hq] at h
      cases h
    · rw [hq] at h
      simp only [Except.ok.injEq] at h
      subst h
      refine ⟨rfl, rfl, rfl, rfl, fun hn => ?_, fun s2 hs2 => ?_⟩
      · cases hn
      · cases hs2
        exact hq

/-- Witness for C8 at a concrete environment overriding host and port. -/
theorem connection_factory_spec_witness :
    ((⟨"db.example", "root", "password", "taskdb", 5⟩ : DBConfig).host
        = getenv envSample "DB_HOST" "mysql-service") ∧
    get_db_connection ⟨some "down", none, none, none⟩ ⟨[], 1, 0⟩
        = .error (.connectionError "down") ∧
    get_db_connection noFault ⟨[], 1, 0⟩ = .ok ⟨[], 1, 1⟩ :=
  ⟨(connection_factory_spec.1 envSample
      ⟨"db.example", "root", "password", "taskdb", 5⟩ rfl).1,
   connection_factory_spec.2.1 ⟨some "down", none, none, none⟩ ⟨[], 1, 0⟩ "down" rfl,
   connection_factory_spec.2.2 noFault ⟨[], 1, 0⟩ rfl⟩

/-- Claim C9: no operation updates or deletes an existing row: GET / leaves
the stored table exactly unchanged under every fault behaviour, and POST /add
only ever appends (its resulting table is the old table plus a possibly-empty
suffix), so every row once present — identifier and original name — remains
present. -/
theorem no_update_no_delete :
    ∀ (fb : FaultSpec) (w : World) (form : Form),
      (index fb w).2.db = w.db ∧
      (∃ ext, (add_task form fb w).2.db = w.db ++ ext) ∧
      (∀ t, t ∈ w.db → t ∈ (add_task form fb w).2.db) := by
  intro fb w form
  have hidx : (index fb w).2.db = w.db := by
    rcases hc : fb.connectF with _ | m
    · rcases he : fb.executeF with _ | m
      · rcases hf : fb.fetchF with _ | m
        · rw [index_all_ok fb w hc he hf]
        · rw [index_fetch_fail fb w m hc he hf]
      · rw [index_execute_fail fb w m hc he]
    · rw [index_connect_fail fb w m hc]
  have hadd : ∃ ext, (add_task form fb w).2.db = w.db ++ ext := by
    rcases ht : form "task" with _ | task
    · exact ⟨[], by simp [add_task, ht]⟩
    · rcases hc : fb.connectF with _ | m
      · rcases he : fb.executeF with _ | m
        · rcases hcm : fb.commitF with _ | m
          · exact ⟨[⟨w.nextId, task⟩],
              by simp [add_task, ht, get_db_connection, execute_insert, commit,
                       conn_close, hc, he, hcm]⟩
          · exact ⟨[], by simp [add_task, ht, get_db_connection, execute_insert,
                                commit, hc, he, hcm]⟩
        · exact ⟨[], by simp [add_task, ht, get_db_connection, execute_insert,
                              hc, he]⟩
      · exact ⟨[], by simp [add_task, ht, get_db_connection, hc]⟩
  obtain ⟨ext, hext⟩ := hadd
  exact ⟨hidx, ⟨ext, hext⟩,
    fun t ht => by rw [hext]; exact List.mem_append_left ext ht⟩

/-- Witness for C9: a pre-existing row survives a successful POST /add. -/
theorem no_update_no_delete_witness :
    (⟨1, "a"⟩ : Task) ∈
      (add_task (fun k => if k = "task" then some "b" else none) noFault
        ⟨[⟨1, "a"⟩], 2, 0⟩).2.db :=
  (no_update_no_delete noFault ⟨[⟨1, "a"⟩], 2, 0⟩
    (fun k => if k = "task" then some "b" else none)).2.2 ⟨1, "a"⟩ (by simp)

/-- Claim C10: the read path also leaks the connection on error: when the
connection opens but query execution or fetching fails, the except branch
returns the error string while the open-connection count stays one above the
starting count (the handle is never closed). -/
theorem index_leaks_conn_on_error :
    ∀ (fb : FaultSpec) (w : World),
      fb.connectF = none →
      (fb.executeF ≠ none ∨ fb.fetchF ≠ none) →
      (index fb w).2.openConns = w.openConns + 1 ∧
      ∃ body, (index fb w).1 = .ok (.text body) := by
  intro fb w hc hfail
  rcases he : fb.executeF with _ | m
  · rcases hf : fb.fetchF with _ | m
    · rw [he, hf] at hfail
      rcases hfail with h | h <;> exact absurd rfl h
    · rw [index_fetch_fail fb w m hc he hf]
      exact ⟨rfl, _, rfl⟩
  · rw [index_execute_fail fb w m hc he]
    exact ⟨rfl, _, rfl⟩

/-- Witness for C10 at a concrete query failure. -/
theorem index_leaks_conn_on_error_witness :
    (index ⟨none, some "bad query", none, none⟩ ⟨[], 1, 0⟩).2.openConns = 0 + 1 ∧
    ∃ body, (index ⟨none, some "bad query", none, none⟩ ⟨[], 1, 0⟩).1 =
      .ok (.text body) :=
  index_leaks_conn_on_error ⟨none, some "bad query", none, none⟩ ⟨[], 1, 0⟩
    rfl (Or.inl (by simp))

end TaskApp
